import Mathlib

/-!
Verification of the AURA forensic evidence-consistency pipeline
(consistency-engine.js, metadata-analyzer.js, server.js).

The JavaScript source is shallowly embedded in Lean:
  - JSON-ish optional fields become `Option` values; JavaScript truthiness
    is modelled explicitly (an empty string, the number 0 and an absent
    value are falsy; arrays, including the empty array, are truthy);
  - positions that the code treats as arrays but that callers can fill
    with any JSON value are modelled by `JField`, which distinguishes an
    absent value, a genuine array, a string and a (non-string, non-array)
    primitive such as a number: calling an array method on the latter two
    raises a TypeError in JavaScript, so the corresponding functions
    return `Except Unit`;
  - JavaScript numbers are modelled by `ℚ` (the code only adds,
    multiplies, divides and compares scores and reliabilities);
  - `new Date(s).getFullYear()` is modelled by an explicit parsing oracle
    `String → Option Int`, where `none` stands for an invalid date whose
    year is `NaN`; the embedding reproduces the fact that `NaN !== y`
    holds for every number `y` and that the `Date` constructor never
    throws.
-/

namespace Aura

/-- A JSON value sitting in a position the code indexes with array
methods.  `absent` is `undefined`/`null`/missing, `list` a real array,
`str` a string, `num` a non-string primitive (a number).  Array methods
(`forEach`, `some`) throw a TypeError on `str` and `num`; `includes`
also exists on strings (substring test) but not on numbers; `length` is
`undefined` on numbers. -/
inductive JField (α : Type) where
  | absent
  | list (xs : List α)
  | str (s : String)
  | num (q : ℚ)
deriving DecidableEq

/-- JavaScript truthiness of a `JField` value: arrays are always truthy,
the empty string and the number 0 are falsy. -/
def JField.truthy {α : Type} : JField α → Bool
  | .absent => false
  | .list _ => true
  | .str s => s ≠ ""
  | .num q => q ≠ 0

/-- `f` is a value on which the array operations of the code are
defined: absent (guarded by truthiness checks) or a genuine array. -/
def JField.wellTyped {α : Type} : JField α → Bool
  | .absent => true
  | .list _ => true
  | _ => false

/-- `x || []`: replaces a falsy value by the empty array. -/
def jfOrEmpty {α : Type} (f : JField α) : JField α :=
  match f with
  | .absent => .list []
  | .list xs => .list xs
  | .str s => if s = "" then .list [] else .str s
  | .num q => if q = 0 then .list [] else .num q

/-- `hay.includes(needle)` on JavaScript strings: substring test. -/
def jsIncludes (hay needle : String) : Bool :=
  decide (needle.data <:+: hay.data)

/-- `v || d` on an optional string: the empty string is falsy. -/
def jsOr (v : Option String) (d : String) : String :=
  match v with
  | some s => if s = "" then d else s
  | none => d

/-- JavaScript truthiness of an optional string. -/
def truthyS (v : Option String) : Bool :=
  match v with
  | some s => s ≠ ""
  | none => false

-- ================================
-- consistency-engine.js : constants and data model
-- ================================

def ENGINE_VERSION : String := "2.4.0"

/-- CONSISTENCY_LEVELS of consistency-engine.js. -/
inductive Verdict where
  | CONSISTENT
  | WEAK
  | CONTRADICTORY
deriving DecidableEq

/-- DIMENSIONS of consistency-engine.js. -/
inductive Dimension where
  | PROCESS
  | CONTROL
  | TOOLING
  | EVIDENCE_COMPLETENESS
deriving DecidableEq

/-- One row of the GIT_EXPECTATIONS table. -/
structure GitExpectation where
  description : String
  ai_in_final : String
  source_files : String
  process_evidence : String
deriving DecidableEq

/-- GIT_EXPECTATIONS: numeric-key lookup, `none` outside 0..5. -/
def GIT_EXPECTATIONS (level : Int) : Option GitExpectation :=
  if level = 0 then
    some { description := "Evidencia de proceso fisico o analogico. Digitalizacion solo documental."
         , ai_in_final := "AUSENCIA_EXPECTADA"
         , source_files := "REQUERIDOS"
         , process_evidence := "REQUERIDA" }
  else if level = 1 then
    some { description := "Archivo fuente editable con capas no acopladas."
         , ai_in_final := "AUSENCIA_EXPECTADA"
         , source_files := "REQUERIDOS"
         , process_evidence := "ESPERADA" }
  else if level = 2 then
    some { description := "IA en ideacion, ninguna senal algoritmica en el archivo final."
         , ai_in_final := "AUSENCIA_EXPECTADA"
         , source_files := "ESPERADOS"
         , process_evidence := "ESPERADA" }
  else if level = 3 then
    some { description := "Senales algoritmicas parciales compatibles con edicion humana sustancial."
         , ai_in_final := "PARCIAL_PERMITIDO"
         , source_files := "ESPERADOS"
         , process_evidence := "ESPERADA" }
  else if level = 4 then
    some { description := "Senales algoritmicas fuertes y coherentes con origen generativo."
         , ai_in_final := "PRESENCIA_ESPERADA"
         , source_files := "OPCIONAL"
         , process_evidence := "OPCIONAL" }
  else if level = 5 then
    some { description := "Senales algoritmicas dominantes y consistentes."
         , ai_in_final := "PRESENCIA_ESPERADA"
         , source_files := "NO_ESPERADOS"
         , process_evidence := "NO_ESPERADA" }
  else
    none

/-- An entry of genesis_declaration.ai_tools_declared. -/
structure ToolEntry where
  engine : Option String
  custom_label : Option String
deriving DecidableEq

structure GenesisDeclaration where
  declared_git_level : Option Int
  ai_tools_declared : JField ToolEntry
deriving DecidableEq

structure ProcessDeclaration where
  no_ai_in_final : Option Bool
  software_used : JField String
  evidence_promised : JField String
deriving DecidableEq

structure ArtistDeclaration where
  execution_year : Option Int
  file_format : Option String
deriving DecidableEq

/-- The frozen intake declaration document, as read by the engine and
the metadata analyzer. -/
structure IntakeDeclarations where
  genesis_declaration : Option GenesisDeclaration
  process_declaration : Option ProcessDeclaration
  artist_declaration : Option ArtistDeclaration
  declared_human_control : Option String
deriving DecidableEq

/-- ai_signals as consumed by the consistency engine. -/
structure AiSignals where
  confidence : Option String
  aggregated_score : Option ℚ
deriving DecidableEq

/-- extracted_metadata as consumed by the tooling dimension (only the
software field is read; fingerprint.model is bound but never used in
the source). -/
structure ExtractedMetadata where
  software : JField String
deriving DecidableEq

structure TechnicalEvidence where
  metadata_flags : JField String
  extracted_metadata : Option ExtractedMetadata
  ai_signals : Option AiSignals
deriving DecidableEq

/-- An entry of evidence_list.files. -/
structure EvidenceItem where
  type : Option String
  name : Option String
deriving DecidableEq

structure EvidenceList where
  has_source_files : Bool
  has_process_evidence : Bool
  has_iteration_files : Bool
  has_layered_files : Bool
  has_multiple_versions : Bool
  files : JField EvidenceItem
deriving DecidableEq

instance : Inhabited GitExpectation :=
  ⟨{ description := "", ai_in_final := "", source_files := "", process_evidence := "" }⟩

/-- The expectations record produced by normalizeDeclarations. -/
structure Expectations where
  git_level : Int
  git_expectation : GitExpectation
  human_control_level : String
  no_ai_in_final_claimed : Bool
  expects_source_files : Bool
  expects_process_evidence : Bool
  expects_ai_signals : Bool
  expects_no_ai_signals : Bool
  expects_high_control_evidence : Bool
deriving DecidableEq

-- accessors mirroring the optional-chaining reads in evaluateConsistency
def declaredGitLevel (intake : Option IntakeDeclarations) : Option Int :=
  (intake.bind (·.genesis_declaration)).bind (·.declared_git_level)

def declaredHumanControl (intake : Option IntakeDeclarations) : Option String :=
  intake.bind (·.declared_human_control)

def declaredNoAiInFinal (intake : Option IntakeDeclarations) : Option Bool :=
  (intake.bind (·.process_declaration)).bind (·.no_ai_in_final)

/-- normalizeDeclarations of consistency-engine.js.  The raw (possibly
absent) git_level drives the range tests (`undefined >= 0` is false in
JavaScript), while `git_level || 0` is stored in the record and
`GIT_EXPECTATIONS[git_level] || GIT_EXPECTATIONS[0]` supplies the
expectation row.  The process_declaration and genesis_declaration
parameters of the source are never used and are omitted here. -/
def normalizeDeclarations (git_level : Option Int) (human_control : Option String)
    (no_ai_final : Option Bool) : Expectations :=
  let base : Expectations :=
    { git_level := git_level.getD 0
    , git_expectation := (git_level.bind GIT_EXPECTATIONS).getD ((GIT_EXPECTATIONS 0).getD default)
    , human_control_level := jsOr human_control "medium"
    , no_ai_in_final_claimed := no_ai_final.getD false
    , expects_source_files := false
    , expects_process_evidence := false
    , expects_ai_signals := false
    , expects_no_ai_signals := false
    , expects_high_control_evidence := false }
  let e1 :=
    match git_level with
    | some g =>
        if 0 ≤ g ∧ g ≤ 2 then
          { base with expects_no_ai_signals := true
                    , expects_source_files := decide (g ≤ 1)
                    , expects_process_evidence := decide (g = 0) }
        else base
    | none => base
  let e2 :=
    match git_level with
    | some g =>
        if 3 ≤ g ∧ g ≤ 5 then
          { e1 with expects_ai_signals := true
                  , expects_source_files :=
                      if 4 ≤ g then false else e1.expects_source_files }
        else e1
    | none => e1
  let e3 :=
    if human_control = some "high" ∨ human_control = some "alto" then
      { e2 with expects_high_control_evidence := true }
    else e2
  if no_ai_final.getD false then { e3 with expects_no_ai_signals := true } else e3

/-- `technical_evidence?.ai_signals?.confidence || 'LOW'`. -/
def aiConfidence (tech : Option TechnicalEvidence) : String :=
  jsOr ((tech.bind (·.ai_signals)).bind (·.confidence)) "LOW"

/-- `technical_evidence?.ai_signals?.aggregated_score || 0`. -/
def aiScore (tech : Option TechnicalEvidence) : ℚ :=
  ((tech.bind (·.ai_signals)).bind (·.aggregated_score)).getD 0

/-- evaluateProcessDimension of consistency-engine.js.  The source's
`if (!git_expectation) return WEAK` guard is unreachable because the
lookup always falls back to the level-0 row; the remaining early
returns become an if-chain. -/
def evaluateProcessDimension (e : Expectations) (ev : Option EvidenceList)
    (tech : Option TechnicalEvidence) : Verdict :=
  let has_source_files := (ev.map (·.has_source_files)).getD false
  let has_process_evidence := (ev.map (·.has_process_evidence)).getD false
  if e.git_level ≤ 1 ∧ e.git_expectation.source_files = "REQUERIDOS" ∧
      has_source_files = false then
    Verdict.WEAK
  else if e.git_level = 0 ∧ e.git_expectation.process_evidence = "REQUERIDA" ∧
      has_process_evidence = false then
    Verdict.WEAK
  else if e.expects_no_ai_signals = true ∧ aiConfidence tech = "HIGH" ∧
      aiScore tech > (0.7 : ℚ) then
    Verdict.CONTRADICTORY
  else if e.expects_no_ai_signals = true ∧ aiConfidence tech = "MEDIUM" ∧
      aiScore tech > (0.6 : ℚ) then
    Verdict.WEAK
  else if e.expects_ai_signals = true ∧ aiConfidence tech = "LOW" ∧
      aiScore tech < (0.3 : ℚ) then
    Verdict.WEAK
  else
    Verdict.CONSISTENT

/-- evaluateControlDimension of consistency-engine.js.  The
intake_declarations parameter is present but unused in the source. -/
def evaluateControlDimension (e : Expectations) (ev : Option EvidenceList)
    (tech : Option TechnicalEvidence) (_intake : Option IntakeDeclarations) : Verdict :=
  if e.expects_high_control_evidence = false then
    Verdict.CONSISTENT
  else
    let has_iteration_evidence := (ev.map (·.has_iteration_files)).getD false
    let has_layers := (ev.map (·.has_layered_files)).getD false
    let has_versions := (ev.map (·.has_multiple_versions)).getD false
    if has_iteration_evidence = false ∧ has_layers = false ∧ has_versions = false then
      Verdict.WEAK
    else if aiConfidence tech = "HIGH" ∧ aiScore tech > (0.8 : ℚ) then
      Verdict.CONTRADICTORY
    else
      Verdict.CONSISTENT

/-- The declared-tools collection shared (as duplicated source text) by
evaluateToolingDimension (consistency-engine.js) and
checkSoftwareSignatures (metadata-analyzer.js): iterate
ai_tools_declared pushing engine and custom_label when truthy, then
append software_used.  `forEach` on a truthy non-array value throws a
TypeError. -/
def toolsFromAiDeclared (f : JField ToolEntry) : Except Unit (List String) :=
  match f with
  | .absent => Except.ok []
  | .list ts =>
      Except.ok (ts.foldl (fun acc t =>
        let acc1 := match t.engine with
          | some e => if e = "" then acc else acc ++ [e]
          | none => acc
        match t.custom_label with
        | some c => if c = "" then acc1 else acc1 ++ [c]
        | none => acc1) [])
  | .str s => if s = "" then Except.ok [] else Except.error ()
  | .num q => if q = 0 then Except.ok [] else Except.error ()

/-- `if (x) x.forEach(s => tools.push(s))` over software_used. -/
def toolsFromSoftwareUsed (f : JField String) : Except Unit (List String) :=
  match f with
  | .absent => Except.ok []
  | .list xs => Except.ok xs
  | .str s => if s = "" then Except.ok [] else Except.error ()
  | .num q => if q = 0 then Except.ok [] else Except.error ()

def aiToolsField (intake : Option IntakeDeclarations) : JField ToolEntry :=
  match intake.bind (·.genesis_declaration) with
  | some g => g.ai_tools_declared
  | none => .absent

def softwareUsedField (intake : Option IntakeDeclarations) : JField String :=
  match intake.bind (·.process_declaration) with
  | some p => p.software_used
  | none => .absent

def evidencePromisedField (intake : Option IntakeDeclarations) : JField String :=
  match intake.bind (·.process_declaration) with
  | some p => p.evidence_promised
  | none => .absent

def metadataFlagsField (tech : Option TechnicalEvidence) : JField String :=
  match tech with
  | some t => t.metadata_flags
  | none => .absent

def extractedSoftwareField (tech : Option TechnicalEvidence) : JField String :=
  match tech.bind (·.extracted_metadata) with
  | some m => m.software
  | none => .absent

def evidenceFilesField (ev : Option EvidenceList) : JField EvidenceItem :=
  match ev with
  | some e => e.files
  | none => .absent

def collectDeclaredToolsE (intake : Option IntakeDeclarations) :
    Except Unit (List String) :=
  match toolsFromAiDeclared (aiToolsField intake) with
  | Except.error u => Except.error u
  | Except.ok t1 =>
      match toolsFromSoftwareUsed (softwareUsedField intake) with
      | Except.error u => Except.error u
      | Except.ok t2 => Except.ok (t1 ++ t2)

/-- `flags.includes(s)` where flags may be any JSON value: on an array a
membership test, on a string the substring test, on a number a
TypeError.  Falsy values were already replaced by `[]`. -/
def jfIncludesStr (f : JField String) (s : String) : Except Unit Bool :=
  match f with
  | .absent => Except.ok false
  | .list xs => Except.ok (xs.contains s)
  | .str h => Except.ok (jsIncludes h s)
  | .num _ => Except.error ()

/-- The `if (detected_software.length > 0) detected_software.forEach ...`
loop counting detected tools that substring-match no declared tool.  On
a number, `.length` is `undefined` and `undefined > 0` is false, so the
loop is skipped; on a truthy string the loop guard passes and `forEach`
throws. -/
def countUndeclared (f : JField String) (all_declared : List String) :
    Except Unit Nat :=
  match f with
  | .absent => Except.ok 0
  | .list ts =>
      Except.ok ((ts.filter (fun tool =>
        ¬ all_declared.any (fun declared =>
          jsIncludes tool.toLower declared || jsIncludes declared tool.toLower))).length)
  | .str _ => Except.error ()
  | .num _ => Except.ok 0

/-- evaluateToolingDimension of consistency-engine.js.  The expectations
parameter is unused in the source; detected_ai_models is bound but never
read and is omitted.  Throwing operations surface as `Except.error`. -/
def evaluateToolingDimensionE (_e : Expectations) (tech : Option TechnicalEvidence)
    (intake : Option IntakeDeclarations) : Except Unit Verdict :=
  let metadata_flags := jfOrEmpty (metadataFlagsField tech)
  match collectDeclaredToolsE intake with
  | Except.error u => Except.error u
  | Except.ok declared_tools =>
      match jfIncludesStr metadata_flags "UNDECLARED_SOFTWARE" with
      | Except.error u => Except.error u
      | Except.ok true => Except.ok Verdict.CONTRADICTORY
      | Except.ok false =>
          match jfIncludesStr metadata_flags "SOFTWARE_SIGNATURE_UNKNOWN" with
          | Except.error u => Except.error u
          | Except.ok true => Except.ok Verdict.WEAK
          | Except.ok false =>
              let all_declared := declared_tools.map String.toLower
              match countUndeclared (jfOrEmpty (extractedSoftwareField tech)) all_declared with
              | Except.error u => Except.error u
              | Except.ok undeclared_count =>
                  if undeclared_count > 1 then Except.ok Verdict.CONTRADICTORY
                  else if undeclared_count = 1 then Except.ok Verdict.WEAK
                  else Except.ok Verdict.CONSISTENT

/-- The per-item match of evaluateEvidenceDimension:
`actual.type && promised.lc.includes(actual.type.lc) || actual.name && promised.lc.includes(actual.name.lc)`. -/
def evidenceItemMatches (promised : String) (a : EvidenceItem) : Bool :=
  (truthyS a.type && jsIncludes promised.toLower ((a.type.getD "").toLower)) ||
  (truthyS a.name && jsIncludes promised.toLower ((a.name.getD "").toLower))

/-- evaluateEvidenceDimension of consistency-engine.js.  After
`|| []`, `declared_evidence` is truthy; `length === 0` only selects a
real empty array, so a truthy non-array value reaches `forEach` and
throws; inside the loop, `actual_evidence.some` throws on a non-array. -/
def evaluateEvidenceDimensionE (_e : Expectations) (ev : Option EvidenceList)
    (intake : Option IntakeDeclarations) : Except Unit Verdict :=
  match jfOrEmpty (evidencePromisedField intake) with
  | .list [] => Except.ok Verdict.CONSISTENT
  | .list ds =>
      match jfOrEmpty (evidenceFilesField ev) with
      | .list as_ =>
          let missing_evidence := ds.filter (fun promised =>
            ¬ as_.any (evidenceItemMatches promised))
          if missing_evidence.length = ds.length then Except.ok Verdict.CONTRADICTORY
          else if missing_evidence.length > 0 then Except.ok Verdict.WEAK
          else Except.ok Verdict.CONSISTENT
      | _ => Except.error ()
  | _ => Except.error ()

/-- The four per-dimension results, in the insertion order of the
dimensionResults object. -/
structure DimensionResults where
  process : Verdict
  control : Verdict
  tooling : Verdict
  evidence : Verdict
deriving DecidableEq

def DimensionResults.values (dr : DimensionResults) : List Verdict :=
  [dr.process, dr.control, dr.tooling, dr.evidence]

def DimensionResults.get (dr : DimensionResults) : Dimension → Verdict
  | .PROCESS => dr.process
  | .CONTROL => dr.control
  | .TOOLING => dr.tooling
  | .EVIDENCE_COMPLETENESS => dr.evidence

def dimensionEntries (dr : DimensionResults) : List (Dimension × Verdict) :=
  [(Dimension.PROCESS, dr.process), (Dimension.CONTROL, dr.control),
   (Dimension.TOOLING, dr.tooling), (Dimension.EVIDENCE_COMPLETENESS, dr.evidence)]

def dimensionOrder : List Dimension :=
  [Dimension.PROCESS, Dimension.CONTROL, Dimension.TOOLING,
   Dimension.EVIDENCE_COMPLETENESS]

/-- calculateGlobalConsistency of consistency-engine.js. -/
def calculateGlobalConsistency (dr : DimensionResults) : Verdict :=
  let values := dr.values
  if values.contains Verdict.CONTRADICTORY then Verdict.CONTRADICTORY
  else if values.contains Verdict.WEAK then Verdict.WEAK
  else Verdict.CONSISTENT

/-- The result record of evaluateConsistency (the evaluated_at timestamp,
taken from the wall clock, is omitted). -/
structure ConsistencyResult where
  case_id : String
  consistency_result : Verdict
  affected_dimensions : List Dimension
  engine_version : String
deriving DecidableEq

/-- evaluateConsistency of consistency-engine.js.  PROCESS and CONTROL
never throw; TOOLING and EVIDENCE_COMPLETENESS may raise a TypeError on
malformed (truthy non-array) list fields, which propagates out of the
function. -/
def evaluateConsistencyE (case_id : String) (intake : Option IntakeDeclarations)
    (tech : Option TechnicalEvidence) (ev : Option EvidenceList) :
    Except Unit ConsistencyResult :=
  let expectations := normalizeDeclarations (declaredGitLevel intake)
    (declaredHumanControl intake) (declaredNoAiInFinal intake)
  let vProcess := evaluateProcessDimension expectations ev tech
  let vControl := evaluateControlDimension expectations ev tech intake
  match evaluateToolingDimensionE expectations tech intake with
  | Except.error u => Except.error u
  | Except.ok vTooling =>
      match evaluateEvidenceDimensionE expectations ev intake with
      | Except.error u => Except.error u
      | Except.ok vEvidence =>
          let dr : DimensionResults :=
            { process := vProcess, control := vControl
            , tooling := vTooling, evidence := vEvidence }
          let globalResult := calculateGlobalConsistency dr
          let affectedDimensions :=
            ((dimensionEntries dr).filter (fun p => p.2 ≠ Verdict.CONSISTENT)).map Prod.fst
          Except.ok { case_id := case_id
                    , consistency_result := globalResult
                    , affected_dimensions := affectedDimensions
                    , engine_version := ENGINE_VERSION }

-- ================================
-- metadata-analyzer.js
-- ================================

def ANALYSIS_VERSION : String := "3.1.0"

/-- TECHNICAL_FLAGS of metadata-analyzer.js. -/
inductive TechnicalFlag where
  | METADATA_MISSING
  | UNDECLARED_SOFTWARE
  | TIMELINE_INCONSISTENCY
  | FORMAT_VERSION_MISMATCH
  | SOFTWARE_SIGNATURE_UNKNOWN
  | EXPORT_CHAIN_BREAK
deriving DecidableEq

/-- `flags.add(f)` on the Set of flags, keeping insertion order. -/
def addFlag (flags : List TechnicalFlag) (f : TechnicalFlag) : List TechnicalFlag :=
  if flags.contains f then flags else flags ++ [f]

/-- The raw technical-metadata record handed to the three checks of
analyzeMetadata (exiftool-style capitalized keys; the checks read these
ten fields).  `otherFieldsCount` counts the remaining keys, so that
`Object.keys(metadata).length` is expressible.  A present field holding
the empty string is a key that exists but is falsy. -/
structure RawMetadata where
  Software : Option String
  CreatorTool : Option String
  Application : Option String
  ProcessingSoftware : Option String
  DateTimeOriginal : Option String
  CreateDate : Option String
  ModifyDate : Option String
  DateCreated : Option String
  CreationDate : Option String
  FileType : Option String
  otherFieldsCount : Nat
deriving DecidableEq

def countPresent (xs : List (Option String)) : Nat :=
  (xs.filterMap id).length

/-- `Object.keys(metadata).length` for a RawMetadata record. -/
def rawKeysCount (m : RawMetadata) : Nat :=
  countPresent [m.Software, m.CreatorTool, m.Application, m.ProcessingSoftware,
    m.DateTimeOriginal, m.CreateDate, m.ModifyDate, m.DateCreated, m.CreationDate,
    m.FileType] + m.otherFieldsCount

/-- `possibleDateFields.find(date => date)`: first truthy value. -/
def jsFindTruthy : List (Option String) → Option String
  | [] => none
  | o :: rest =>
      match o with
      | some s => if s = "" then jsFindTruthy rest else some s
      | none => jsFindTruthy rest

def declaredExecutionYear (intake : Option IntakeDeclarations) : Option Int :=
  (intake.bind (·.artist_declaration)).bind (·.execution_year)

def declaredFileFormat (intake : Option IntakeDeclarations) : Option String :=
  (intake.bind (·.artist_declaration)).bind (·.file_format)

/-- checkTimelineConsistency of metadata-analyzer.js.  `parseYear` is
the oracle for `new Date(s).getFullYear()`: `none` means an invalid
date, whose year is `NaN`.  Because the `Date` constructor does not
throw and `NaN !== declaredYear` holds for every number, an invalid
date still adds the flag — the `catch` branch whose comment promises
to ignore unparseable dates is unreachable. -/
def checkTimelineConsistency (parseYear : String → Option Int) (m : RawMetadata)
    (intake : Option IntakeDeclarations) (flags : List TechnicalFlag) :
    List TechnicalFlag :=
  match declaredExecutionYear intake with
  | none => flags
  | some declaredYear =>
      if declaredYear = 0 then flags
      else
        let possibleDateFields :=
          [m.DateTimeOriginal, m.CreateDate, m.ModifyDate, m.DateCreated, m.CreationDate]
        match jsFindTruthy possibleDateFields with
        | none => flags
        | some foundDate =>
            match parseYear foundDate with
            | some y =>
                if y ≠ declaredYear then addFlag flags TechnicalFlag.TIMELINE_INCONSISTENCY
                else flags
            | none => addFlag flags TechnicalFlag.TIMELINE_INCONSISTENCY

/-- `[m.Software, m.CreatorTool, m.Application, m.ProcessingSoftware].filter(Boolean)`. -/
def detectedSoftwareFields (m : RawMetadata) : List String :=
  ([m.Software, m.CreatorTool, m.Application, m.ProcessingSoftware].filterMap id).filter
    (fun s => s ≠ "")

/-- checkSoftwareSignatures of metadata-analyzer.js.  The declared-tools
collection duplicates the consistency-engine text and is shared here;
it can throw a TypeError on a malformed declaration, which the caller's
try/catch converts to METADATA_MISSING. -/
def checkSoftwareSignaturesE (m : RawMetadata) (intake : Option IntakeDeclarations)
    (flags : List TechnicalFlag) : Except Unit (List TechnicalFlag) :=
  let detectedSoftware := detectedSoftwareFields m
  if detectedSoftware.length = 0 then Except.ok flags
  else
    match collectDeclaredToolsE intake with
    | Except.error u => Except.error u
    | Except.ok declaredTools =>
    if declaredTools.length > 0 then
      Except.ok (detectedSoftware.foldl (fun fl software =>
        if declaredTools.any (fun declared =>
            jsIncludes software.toLower declared.toLower ||
            jsIncludes declared.toLower software.toLower) then
          fl
        else
          addFlag fl TechnicalFlag.UNDECLARED_SOFTWARE) flags)
    else
      Except.ok (addFlag flags TechnicalFlag.SOFTWARE_SIGNATURE_UNKNOWN)

/-- checkFormatConsistency of metadata-analyzer.js: runs only when both
the declared format and metadata.FileType are truthy; case-insensitive
substring match in either direction. -/
def checkFormatConsistency (m : RawMetadata) (intake : Option IntakeDeclarations)
    (flags : List TechnicalFlag) : List TechnicalFlag :=
  match declaredFileFormat intake, m.FileType with
  | some declaredFormat, some fileType =>
      if declaredFormat ≠ "" ∧ fileType ≠ "" then
        let detectedFormat := fileType.toLower
        let declaredFormatLower := declaredFormat.toLower
        if ¬ jsIncludes detectedFormat declaredFormatLower ∧
            ¬ jsIncludes declaredFormatLower detectedFormat then
          addFlag flags TechnicalFlag.FORMAT_VERSION_MISMATCH
        else flags
      else flags
  | _, _ => flags

/-- The externally determined outcomes of analyzeMetadata's effectful
steps: the file reference, whether the download succeeded, the sniffed
file type, the record produced by extractTechnicalMetadata (which never
throws: it catches internally and returns an empty object), and the
date-parsing oracle. -/
structure AnalyzeEnv where
  file_url : Option String
  download_ok : Bool
  file_type : Option String
  raw_metadata : RawMetadata
  parseYear : String → Option Int

/-- The metadata_flags list computed by analyzeMetadata of
metadata-analyzer.js (the surrounding result record also carries
case_id, analysis_version and a timestamp).  A missing or failing
download and an unidentifiable file type short-circuit to
METADATA_MISSING; an empty record flags METADATA_MISSING; otherwise the
three checks run in order, and a TypeError thrown by the software check
on a malformed declaration is caught and converted to METADATA_MISSING,
keeping the flags already added. -/
def analyzeMetadataFlags (env : AnalyzeEnv) (intake : Option IntakeDeclarations) :
    List TechnicalFlag :=
  if ¬ truthyS env.file_url then [TechnicalFlag.METADATA_MISSING]
  else if env.download_ok = false then [TechnicalFlag.METADATA_MISSING]
  else
    match env.file_type with
    | none => addFlag [] TechnicalFlag.METADATA_MISSING
    | some _ =>
        let m := env.raw_metadata
        if rawKeysCount m = 0 then addFlag [] TechnicalFlag.METADATA_MISSING
        else
          let f1 := checkTimelineConsistency env.parseYear m intake []
          match checkSoftwareSignaturesE m intake f1 with
          | Except.ok f2 => checkFormatConsistency m intake f2
          | Except.error _ => addFlag f1 TechnicalFlag.METADATA_MISSING

-- ================================
-- server.js : signal aggregation and confidence banding
-- ================================

/-- One detector result as consumed by calculateWeightedAggregation and
calculateConfidence; `none` in a field models a missing or non-numeric
value. -/
structure SignalEntry where
  score : Option ℚ
  reliability : Option ℚ
deriving DecidableEq

/-- calculateWeightedAggregation of server.js: reliability-weighted
mean over the entries whose score and reliability are both numbers,
0 unless the reliability total is positive. -/
def calculateWeightedAggregation (signals : List (Option SignalEntry)) : ℚ :=
  let acc := signals.foldl (fun (acc : ℚ × ℚ) s =>
    match s with
    | some e =>
        match e.score, e.reliability with
        | some sc, some r => (acc.1 + sc * r, acc.2 + r)
        | _, _ => acc
    | none => acc) (0, 0)
  if acc.2 > 0 then acc.1 / acc.2 else 0

/-- The list of present detector scores
(`Object.values(signals).filter(s => s && typeof s.score === 'number').map(s => s.score)`). -/
def presentScores (signals : List (Option SignalEntry)) : List ℚ :=
  signals.filterMap (fun s => s.bind (·.score))

/-- The mean of the present scores (only evaluated when at least one
score is present). -/
def scoresMean (signals : List (Option SignalEntry)) : ℚ :=
  (presentScores signals).sum / (presentScores signals).length

/-- The population variance of the present scores, as computed in
calculateConfidence. -/
def scoresVariance (signals : List (Option SignalEntry)) : ℚ :=
  ((presentScores signals).map (fun b => (b - scoresMean signals) ^ 2)).sum /
    (presentScores signals).length

/-- `s && s.reliability > 0.7` (`undefined > 0.7` is false). -/
def entryHighReliability (s : Option SignalEntry) : Bool :=
  match s with
  | some e =>
      match e.reliability with
      | some r => decide (r > (0.7 : ℚ))
      | none => false
  | none => false

/-- calculateConfidence of server.js. -/
def calculateConfidence (signals : List (Option SignalEntry))
    (metadataIntegrity : Bool) : String :=
  let scores := presentScores signals
  if scores.length = 0 then "LOW"
  else
    let variance := scoresVariance signals
    let scoreCount := scores.length
    let highReliability := (signals.filter entryHighReliability).length ≥ 3
    if scoreCount ≥ 4 ∧ variance < (0.05 : ℚ) ∧ highReliability ∧
        metadataIntegrity = true then "HIGH"
    else if scoreCount ≥ 3 ∧ metadataIntegrity = true then "MEDIUM"
    else "LOW"

-- ================================
-- Shared helper lemmas
-- ================================

lemma affected_filter (dr : DimensionResults) :
    ((dimensionEntries dr).filter (fun p => p.2 ≠ Verdict.CONSISTENT)).map Prod.fst
      = dimensionOrder.filter (fun d => dr.get d ≠ Verdict.CONSISTENT) := by
  obtain ⟨p, c, t, e⟩ := dr
  cases p <;> cases c <;> cases t <;> cases e <;> rfl

lemma mem_addFlag (l : List TechnicalFlag) (a b : TechnicalFlag) :
    a ∈ addFlag l b ↔ a ∈ l ∨ a = b := by
  unfold addFlag
  by_cases hb : l.contains b
  · rw [if_pos hb]
    constructor
    · exact Or.inl
    · rintro (h | rfl)
      · exact h
      · simpa using hb
  · rw [if_neg hb]
    simp

/-- A concrete ai-signal bundle: HIGH confidence, aggregated score 0.85. -/
def signalsHigh085 : Option TechnicalEvidence :=
  some { metadata_flags := JField.absent
       , extracted_metadata := none
       , ai_signals := some { confidence := some "HIGH", aggregated_score := some (0.85 : ℚ) } }

-- ================================
-- Claim theorems
-- ================================

/-- The four dimension verdicts a run of evaluateConsistency actually
computes: PROCESS and CONTROL applied to the expectations normalized
from the given intake, together with the verdicts the TOOLING and
EVIDENCE_COMPLETENESS evaluators returned. -/
def actualDimResults (intake : Option IntakeDeclarations)
    (tech : Option TechnicalEvidence) (ev : Option EvidenceList)
    (vt ve : Verdict) : DimensionResults :=
  { process := evaluateProcessDimension
      (normalizeDeclarations (declaredGitLevel intake) (declaredHumanControl intake)
        (declaredNoAiInFinal intake)) ev tech
  , control := evaluateControlDimension
      (normalizeDeclarations (declaredGitLevel intake) (declaredHumanControl intake)
        (declaredNoAiInFinal intake)) ev tech intake
  , tooling := vt
  , evidence := ve }

lemma mem_affected_iff (dr : DimensionResults) (d : Dimension) :
    d ∈ ((dimensionEntries dr).filter (fun p => p.2 ≠ Verdict.CONSISTENT)).map Prod.fst ↔
      dr.get d ≠ Verdict.CONSISTENT := by
  rw [affected_filter]
  rw [List.mem_filter]
  constructor
  · rintro ⟨_, h⟩
    simpa using h
  · intro h
    exact ⟨by cases d <;> simp [dimensionOrder], by simpa using h⟩

/-- C1: for every assignment of verdicts to the four dimensions, the
global verdict of calculateGlobalConsistency is CONTRADICTORY iff some
dimension verdict is CONTRADICTORY, otherwise WEAK iff some dimension
verdict is WEAK, otherwise CONSISTENT; and every successful run of
evaluateConsistency reports as consistency_result the global verdict of
the four dimension verdicts it actually computed and records as
affected_dimensions exactly the set of dimensions whose computed
verdict is not CONSISTENT (in the fixed PROCESS, CONTROL, TOOLING,
EVIDENCE_COMPLETENESS order). -/
theorem global_precedence_and_affected_dimensions :
    (∀ dr : DimensionResults,
      ((calculateGlobalConsistency dr = Verdict.CONTRADICTORY) ↔
        Verdict.CONTRADICTORY ∈ dr.values) ∧
      (Verdict.CONTRADICTORY ∉ dr.values →
        ((calculateGlobalConsistency dr = Verdict.WEAK) ↔ Verdict.WEAK ∈ dr.values)) ∧
      (Verdict.CONTRADICTORY ∉ dr.values → Verdict.WEAK ∉ dr.values →
        calculateGlobalConsistency dr = Verdict.CONSISTENT)) ∧
    (∀ case_id intake tech ev r vt ve,
      evaluateConsistencyE case_id intake tech ev = Except.ok r →
      evaluateToolingDimensionE
        (normalizeDeclarations (declaredGitLevel intake) (declaredHumanControl intake)
          (declaredNoAiInFinal intake)) tech intake = Except.ok vt →
      evaluateEvidenceDimensionE
        (normalizeDeclarations (declaredGitLevel intake) (declaredHumanControl intake)
          (declaredNoAiInFinal intake)) ev intake = Except.ok ve →
      r.consistency_result
        = calculateGlobalConsistency (actualDimResults intake tech ev vt ve) ∧
      r.affected_dimensions
        = dimensionOrder.filter (fun d =>
            (actualDimResults intake tech ev vt ve).get d ≠ Verdict.CONSISTENT) ∧
      ∀ d : Dimension,
        (d ∈ r.affected_dimensions ↔
          (actualDimResults intake tech ev vt ve).get d ≠ Verdict.CONSISTENT)) := by
  constructor
  · intro dr
    obtain ⟨p, c, t, e⟩ := dr
    cases p <;> cases c <;> cases t <;> cases e <;> decide
  · intro case_id intake tech ev r vt ve h hto hev
    simp only [evaluateConsistencyE, hto, hev, Except.ok.injEq] at h
    subst h
    exact ⟨rfl, affected_filter _, fun d => mem_affected_iff _ d⟩

/-- Witness for C1: both halves applied at a concrete input
(a declaration-free evaluation returns WEAK with PROCESS affected;
its TOOLING and EVIDENCE_COMPLETENESS evaluators return CONSISTENT). -/
theorem global_precedence_and_affected_dimensions_witness :
    ((calculateGlobalConsistency
        { process := Verdict.WEAK, control := Verdict.CONSISTENT
        , tooling := Verdict.CONSISTENT, evidence := Verdict.CONSISTENT } = Verdict.WEAK) ↔
      Verdict.WEAK ∈ (DimensionResults.mk Verdict.WEAK Verdict.CONSISTENT
        Verdict.CONSISTENT Verdict.CONSISTENT).values) ∧
    ((ConsistencyResult.mk "c" Verdict.WEAK [Dimension.PROCESS] "2.4.0").consistency_result
        = calculateGlobalConsistency
            (actualDimResults none none none Verdict.CONSISTENT Verdict.CONSISTENT) ∧
     (ConsistencyResult.mk "c" Verdict.WEAK [Dimension.PROCESS] "2.4.0").affected_dimensions
        = dimensionOrder.filter (fun d =>
            (actualDimResults none none none Verdict.CONSISTENT Verdict.CONSISTENT).get d
              ≠ Verdict.CONSISTENT) ∧
     ∀ d : Dimension,
       (d ∈ (ConsistencyResult.mk "c" Verdict.WEAK
            [Dimension.PROCESS] "2.4.0").affected_dimensions ↔
         (actualDimResults none none none Verdict.CONSISTENT Verdict.CONSISTENT).get d
           ≠ Verdict.CONSISTENT)) :=
  ⟨(global_precedence_and_affected_dimensions.1
      { process := Verdict.WEAK, control := Verdict.CONSISTENT
      , tooling := Verdict.CONSISTENT, evidence := Verdict.CONSISTENT }).2.1 (by decide),
   global_precedence_and_affected_dimensions.2 "c" none none none _
     Verdict.CONSISTENT Verdict.CONSISTENT (by rfl) (by rfl) (by rfl)⟩

/-- C2 counterexample: a declaration at GIT 0 with no source files and
no process evidence satisfies every hypothesis of the claim
(expects_no_ai_signals, HIGH confidence, aggregated score 0.85 > 0.7),
yet the PROCESS dimension returns WEAK, not CONTRADICTORY: the early
WEAK rules return before the AI-signal escalation is reached. -/
theorem process_escalation_does_not_override_early_weak :
    (normalizeDeclarations (some 0) none none).expects_no_ai_signals = true ∧
    aiConfidence signalsHigh085 = "HIGH" ∧
    aiScore signalsHigh085 > (0.7 : ℚ) ∧
    evaluateProcessDimension (normalizeDeclarations (some 0) none none) none signalsHigh085
      = Verdict.WEAK := by
  refine ⟨by decide, rfl, by norm_num [aiScore, signalsHigh085], rfl⟩

/-- C2 (amended): the AI-signal escalation of the PROCESS dimension
yields CONTRADICTORY whenever expects_no_ai_signals holds with HIGH
confidence and aggregated score above 0.7, provided neither earlier
WEAK rule fires (declared GIT at most 1 with required source files
absent, or GIT 0 with required process evidence absent); when an
earlier rule fires the dimension returns WEAK at once and the
escalation never runs. -/
theorem process_escalation_when_no_early_weak
    (e : Expectations) (ev : Option EvidenceList) (tech : Option TechnicalEvidence)
    (h1 : ¬ (e.git_level ≤ 1 ∧ e.git_expectation.source_files = "REQUERIDOS" ∧
        (ev.map (·.has_source_files)).getD false = false))
    (h2 : ¬ (e.git_level = 0 ∧ e.git_expectation.process_evidence = "REQUERIDA" ∧
        (ev.map (·.has_process_evidence)).getD false = false))
    (hno : e.expects_no_ai_signals = true)
    (hconf : aiConfidence tech = "HIGH")
    (hscore : aiScore tech > (0.7 : ℚ)) :
    evaluateProcessDimension e ev tech = Verdict.CONTRADICTORY := by
  simp only [evaluateProcessDimension]
  rw [if_neg h1, if_neg h2, if_pos ⟨hno, hconf, hscore⟩]

/-- Witness for the amended C2, at GIT 2 (no early WEAK rule applies). -/
theorem process_escalation_when_no_early_weak_witness :
    evaluateProcessDimension (normalizeDeclarations (some 2) none none) none signalsHigh085
      = Verdict.CONTRADICTORY :=
  process_escalation_when_no_early_weak _ _ _ (by decide) (by decide) (by decide)
    (by rfl) (by norm_num [aiScore, signalsHigh085])

/-- C3 counterexample: a declaration of high human control with none of
the three control-evidence kinds supplied, HIGH confidence and
aggregated score 0.85 > 0.8 satisfies every hypothesis of the claim,
yet the CONTROL dimension returns WEAK, not CONTRADICTORY: the
evidence-presence check returns WEAK before the AI-signal check runs. -/
theorem control_contradiction_does_not_override_weak :
    (normalizeDeclarations none (some "high") none).expects_high_control_evidence = true ∧
    aiConfidence signalsHigh085 = "HIGH" ∧
    aiScore signalsHigh085 > (0.8 : ℚ) ∧
    evaluateControlDimension (normalizeDeclarations none (some "high") none) none
      signalsHigh085 none = Verdict.WEAK := by
  refine ⟨by decide, rfl, by norm_num [aiScore, signalsHigh085], rfl⟩

/-- C3 (amended): when high control evidence is expected, the CONTROL
dimension returns CONTRADICTORY on HIGH confidence with aggregated
score above 0.8 provided at least one of iteration evidence, layered
files or multiple versions was supplied; when none of the three is
present, the dimension returns WEAK at once and the AI-signal check
never runs. -/
theorem control_contradiction_requires_some_control_evidence
    (e : Expectations) (ev : Option EvidenceList) (tech : Option TechnicalEvidence)
    (intake : Option IntakeDeclarations)
    (hhigh : e.expects_high_control_evidence = true)
    (hev : ¬ ((ev.map (·.has_iteration_files)).getD false = false ∧
        (ev.map (·.has_layered_files)).getD false = false ∧
        (ev.map (·.has_multiple_versions)).getD false = false))
    (hconf : aiConfidence tech = "HIGH")
    (hscore : aiScore tech > (0.8 : ℚ)) :
    evaluateControlDimension e ev tech intake = Verdict.CONTRADICTORY := by
  simp only [evaluateControlDimension, hhigh]
  rw [if_neg (by simp), if_neg hev, if_pos ⟨hconf, hscore⟩]

/-- Witness for the amended C3, with iteration files supplied. -/
theorem control_contradiction_requires_some_control_evidence_witness :
    evaluateControlDimension (normalizeDeclarations none (some "high") none)
      (some { has_source_files := false, has_process_evidence := false
            , has_iteration_files := true, has_layered_files := false
            , has_multiple_versions := false, files := JField.absent })
      signalsHigh085 none = Verdict.CONTRADICTORY :=
  control_contradiction_requires_some_control_evidence _ _ _ _ (by decide) (by decide)
    (by rfl) (by norm_num [aiScore, signalsHigh085])

/-- Failing input for C4. -/
def metadataUnparseableDate : RawMetadata :=
  { Software := none, CreatorTool := none, Application := none, ProcessingSoftware := none
  , DateTimeOriginal := some "not-a-date", CreateDate := none, ModifyDate := none
  , DateCreated := none, CreationDate := none, FileType := none, otherFieldsCount := 0 }

def intakeYear2023 : IntakeDeclarations :=
  { genesis_declaration := none, process_declaration := none
  , artist_declaration := some { execution_year := some 2023, file_format := none }
  , declared_human_control := none }

/-- C4 (code bug): with a first date field that does not parse
(`new Date` yields an invalid date, year NaN) and declared year 2023,
the timeline check still adds TIMELINE_INCONSISTENCY, both in isolation
and through analyzeMetadata, because `NaN !== 2023` holds and the catch
branch meant to ignore unparseable dates is unreachable. -/
theorem timeline_flag_added_for_unparseable_date :
    checkTimelineConsistency (fun _ => none) metadataUnparseableDate (some intakeYear2023) []
      = [TechnicalFlag.TIMELINE_INCONSISTENCY] ∧
    analyzeMetadataFlags
      { file_url := some "https://example.org/a.png", download_ok := true
      , file_type := some "image/png", raw_metadata := metadataUnparseableDate
      , parseYear := fun _ => none }
      (some intakeYear2023)
      = [TechnicalFlag.TIMELINE_INCONSISTENCY] :=
  ⟨rfl, rfl⟩

/-- C5 -/
theorem format_check_requires_declared_format :
    ∀ (m : RawMetadata) (intake : Option IntakeDeclarations) (flags : List TechnicalFlag),
      (declaredFileFormat intake = none →
        checkFormatConsistency m intake flags = flags) ∧
      (∀ df ft, declaredFileFormat intake = some df → df ≠ "" →
        m.FileType = some ft → ft ≠ "" →
        ((TechnicalFlag.FORMAT_VERSION_MISMATCH ∈ checkFormatConsistency m intake flags) ↔
          (TechnicalFlag.FORMAT_VERSION_MISMATCH ∈ flags ∨
            (¬ jsIncludes ft.toLower df.toLower ∧ ¬ jsIncludes df.toLower ft.toLower)))) := by
  intro m intake flags
  constructor
  · intro h
    simp [checkFormatConsistency, h]
  · intro df ft hdf hdfne hft hftne
    simp only [checkFormatConsistency, hdf, hft]
    rw [if_pos ⟨hdfne, hftne⟩]
    cases hb1 : jsIncludes ft.toLower df.toLower <;>
      cases hb2 : jsIncludes df.toLower ft.toLower <;>
        simp [hb1, hb2, mem_addFlag]

/-- Witness for C5. -/
theorem format_check_requires_declared_format_witness :
    (TechnicalFlag.FORMAT_VERSION_MISMATCH ∈
      checkFormatConsistency
        { Software := none, CreatorTool := none, Application := none
        , ProcessingSoftware := none, DateTimeOriginal := none, CreateDate := none
        , ModifyDate := none, DateCreated := none, CreationDate := none
        , FileType := some "jpeg", otherFieldsCount := 0 }
        (some { genesis_declaration := none, process_declaration := none
              , artist_declaration := some { execution_year := none, file_format := some "png" }
              , declared_human_control := none })
        []) ↔
    (TechnicalFlag.FORMAT_VERSION_MISMATCH ∈ ([] : List TechnicalFlag) ∨
      (¬ jsIncludes "jpeg".toLower "png".toLower ∧ ¬ jsIncludes "png".toLower "jpeg".toLower)) :=
  (format_check_requires_declared_format _ _ _).2 "png" "jpeg" rfl (by decide) rfl (by decide)


lemma mem_undeclared_foldl (declaredTools : List String) (detected : List String)
    (flags : List TechnicalFlag) (f : TechnicalFlag) :
    (f ∈ detected.foldl (fun fl software =>
        if declaredTools.any (fun declared =>
            jsIncludes software.toLower declared.toLower ||
            jsIncludes declared.toLower software.toLower) then fl
        else addFlag fl TechnicalFlag.UNDECLARED_SOFTWARE) flags) ↔
      (f ∈ flags ∨ (f = TechnicalFlag.UNDECLARED_SOFTWARE ∧
        ∃ s ∈ detected, declaredTools.any (fun declared =>
            jsIncludes s.toLower declared.toLower ||
            jsIncludes declared.toLower s.toLower) = false)) := by
  induction detected generalizing flags with
  | nil => simp
  | cons s rest ih =>
    simp only [List.foldl_cons]
    cases hs : declaredTools.any (fun declared =>
        jsIncludes s.toLower declared.toLower ||
        jsIncludes declared.toLower s.toLower) with
    | true =>
      rw [if_pos rfl, ih]
      constructor
      · rintro (h | ⟨hf, t, ht, hP⟩)
        · exact Or.inl h
        · exact Or.inr ⟨hf, t, List.mem_cons_of_mem _ ht, hP⟩
      · rintro (h | ⟨hf, t, ht, hP⟩)
        · exact Or.inl h
        · rcases List.mem_cons.mp ht with h1 | ht2
          · subst h1; rw [hs] at hP; exact Bool.noConfusion hP
          · exact Or.inr ⟨hf, t, ht2, hP⟩
    | false =>
      rw [if_neg (by simp), ih]
      constructor
      · rintro (h | ⟨hf, t, ht, hP⟩)
        · rcases (mem_addFlag flags f TechnicalFlag.UNDECLARED_SOFTWARE).mp h with h2 | h3
          · exact Or.inl h2
          · exact Or.inr ⟨h3, s, List.mem_cons_self s rest, hs⟩
        · exact Or.inr ⟨hf, t, List.mem_cons_of_mem _ ht, hP⟩
      · rintro (h | ⟨hf, t, ht, hP⟩)
        · exact Or.inl ((mem_addFlag flags f TechnicalFlag.UNDECLARED_SOFTWARE).mpr (Or.inl h))
        · rcases List.mem_cons.mp ht with h1 | ht2
          · exact Or.inl ((mem_addFlag flags f TechnicalFlag.UNDECLARED_SOFTWARE).mpr (Or.inr hf))
          · exact Or.inr ⟨hf, t, ht2, hP⟩

/-- C7 -/
theorem software_signature_check_cases :
    ∀ (m : RawMetadata) (intake : Option IntakeDeclarations) (flags : List TechnicalFlag)
      (ds : List String), collectDeclaredToolsE intake = Except.ok ds →
      ((detectedSoftwareFields m = [] →
          checkSoftwareSignaturesE m intake flags = Except.ok flags) ∧
       (detectedSoftwareFields m ≠ [] → ds = [] →
          checkSoftwareSignaturesE m intake flags
            = Except.ok (addFlag flags TechnicalFlag.SOFTWARE_SIGNATURE_UNKNOWN)) ∧
       (detectedSoftwareFields m ≠ [] → ds ≠ [] →
          ∃ fl, checkSoftwareSignaturesE m intake flags = Except.ok fl ∧
            ∀ f, (f ∈ fl ↔ f ∈ flags ∨ (f = TechnicalFlag.UNDECLARED_SOFTWARE ∧
              ∃ s ∈ detectedSoftwareFields m, ds.any (fun declared =>
                jsIncludes s.toLower declared.toLower ||
                jsIncludes declared.toLower s.toLower) = false)))) := by
  intro m intake flags ds hds
  refine ⟨?_, ?_, ?_⟩
  · intro hempty
    simp [checkSoftwareSignaturesE, hempty]
  · intro hne hdsnil
    subst hdsnil
    simp only [checkSoftwareSignaturesE, hds]
    rw [if_neg (by simpa using hne)]
    simp
  · intro hne hdsne
    simp only [checkSoftwareSignaturesE, hds]
    rw [if_neg (by simpa using hne)]
    rw [if_pos (by simpa [List.length_pos] using hdsne)]
    exact ⟨_, rfl, fun f => mem_undeclared_foldl ds (detectedSoftwareFields m) flags f⟩

/-- Witness for C7. -/
theorem software_signature_check_cases_witness :
    checkSoftwareSignaturesE
      { Software := some "Adobe Photoshop", CreatorTool := none, Application := none
      , ProcessingSoftware := none, DateTimeOriginal := none, CreateDate := none
      , ModifyDate := none, DateCreated := none, CreationDate := none
      , FileType := none, otherFieldsCount := 0 }
      none []
      = Except.ok (addFlag [] TechnicalFlag.SOFTWARE_SIGNATURE_UNKNOWN) :=
  (software_signature_check_cases _ none [] [] rfl).2.1 (by decide) rfl


/-- The (score, reliability) pairs of the entries whose score and
reliability are both numeric. -/
def validPairs (signals : List (Option SignalEntry)) : List (ℚ × ℚ) :=
  signals.filterMap (fun s => s.bind (fun e =>
    e.score.bind (fun sc => e.reliability.map (fun r => (sc, r)))))

/-- Each numeric reliability is nonnegative (the SignalBundle invariant
keeps reliabilities in the unit interval). -/
def entryRelNonneg : Option SignalEntry → Bool
  | some e =>
      match e.reliability with
      | some r => decide (0 ≤ r)
      | none => true
  | none => true

lemma aggregation_foldl (signals : List (Option SignalEntry)) (a b : ℚ) :
    signals.foldl (fun (acc : ℚ × ℚ) s =>
      match s with
      | some e =>
          match e.score, e.reliability with
          | some sc, some r => (acc.1 + sc * r, acc.2 + r)
          | _, _ => acc
      | none => acc) (a, b) =
    (a + ((validPairs signals).map (fun p => p.1 * p.2)).sum,
     b + ((validPairs signals).map Prod.snd).sum) := by
  induction signals generalizing a b with
  | nil => simp [validPairs]
  | cons s rest ih =>
    cases s with
    | none => simp [validPairs, List.filterMap_cons, ih, List.foldl_cons]
    | some e =>
      cases hsc : e.score with
      | none =>
        simp only [List.foldl_cons, hsc]
        rw [ih]
        simp [validPairs, List.filterMap_cons, hsc]
      | some sc =>
        cases hr : e.reliability with
        | none =>
          simp only [List.foldl_cons, hsc, hr]
          rw [ih]
          simp [validPairs, List.filterMap_cons, hsc, hr]
        | some r =>
          simp only [List.foldl_cons, hsc, hr]
          rw [ih]
          simp [validPairs, List.filterMap_cons, hsc, hr, Prod.ext_iff]
          constructor <;> ring

lemma validPairs_rel_nonneg (signals : List (Option SignalEntry))
    (h : signals.all entryRelNonneg = true) :
    ∀ p ∈ validPairs signals, 0 ≤ p.2 := by
  intro p hp
  rw [validPairs, List.mem_filterMap] at hp
  obtain ⟨s, hs, hmap⟩ := hp
  cases s with
  | none => simp at hmap
  | some e =>
    simp only [Option.some_bind] at hmap
    cases hsc : e.score with
    | none => rw [hsc] at hmap; simp at hmap
    | some sc =>
      cases hr : e.reliability with
      | none => rw [hsc, hr] at hmap; simp at hmap
      | some r =>
        rw [hsc, hr] at hmap
        have hmap2 : (sc, r) = p := by simpa using hmap
        have he := List.all_eq_true.mp h _ hs
        rw [entryRelNonneg, hr] at he
        rw [← hmap2]
        simpa using he

/-- C8: the aggregated score of calculateWeightedAggregation equals the
reliability-weighted sum divided by the reliability total over the
numeric entries, and equals 0 when that total is 0 (in particular for
an empty bundle); reliabilities are assumed nonnegative, as the
SignalBundle invariant guarantees. -/
theorem weighted_aggregation_formula
    (signals : List (Option SignalEntry))
    (h : signals.all entryRelNonneg = true) :
    (((validPairs signals).map Prod.snd).sum = 0 →
      calculateWeightedAggregation signals = 0) ∧
    (((validPairs signals).map Prod.snd).sum ≠ 0 →
      calculateWeightedAggregation signals =
        ((validPairs signals).map (fun p => p.1 * p.2)).sum /
          ((validPairs signals).map Prod.snd).sum) := by
  have hR : (0:ℚ) ≤ ((validPairs signals).map Prod.snd).sum := by
    apply List.sum_nonneg
    intro x hx
    obtain ⟨p, hp, hpe⟩ := List.mem_map.mp hx
    rw [← hpe]
    exact validPairs_rel_nonneg signals h p hp
  constructor
  · intro h0
    unfold calculateWeightedAggregation
    rw [aggregation_foldl]
    simp [h0]
  · intro hne
    have hpos : (0:ℚ) < ((validPairs signals).map Prod.snd).sum :=
      lt_of_le_of_ne hR (Ne.symm hne)
    unfold calculateWeightedAggregation
    rw [aggregation_foldl]
    simp only [zero_add]
    rw [if_pos hpos]

/-- Witness for C8: one valid entry with score 1 and reliability 1. -/
theorem weighted_aggregation_formula_witness :
    calculateWeightedAggregation [some { score := some 1, reliability := some 1 }]
      = ((validPairs [some { score := some 1, reliability := some 1 }]).map
          (fun p => p.1 * p.2)).sum /
        ((validPairs [some { score := some 1, reliability := some 1 }]).map Prod.snd).sum :=
  (weighted_aggregation_formula _ (by norm_num [entryRelNonneg])).2
    (by norm_num [validPairs, List.filterMap_cons, List.filterMap_nil])

/-- The ordering of the confidence bands: LOW below MEDIUM below HIGH. -/
def confRank (c : String) : Nat :=
  if c = "HIGH" then 2 else if c = "MEDIUM" then 1 else 0

/-- Each numeric reliability is at least 0.7. -/
def entryRelGe07 : Option SignalEntry → Bool
  | some e =>
      match e.reliability with
      | some r => decide ((0.7 : ℚ) ≤ r)
      | none => true
  | none => true

/-- C9: with the same metadata-integrity flag, 2 present scores against
4, all reliabilities at least 0.7 and the larger bundle's variance
below 0.05, the confidence band of the 4-score bundle is at least that
of the 2-score bundle (a 2-score bundle always lands in LOW). -/
theorem confidence_monotone_two_to_four
    (b2 b4 : List (Option SignalEntry)) (integrity : Bool)
    (h2 : (presentScores b2).length = 2)
    (h4 : (presentScores b4).length = 4)
    (hr2 : b2.all entryRelGe07 = true)
    (hr4 : b4.all entryRelGe07 = true)
    (hv : scoresVariance b4 < (0.05 : ℚ)) :
    confRank (calculateConfidence b2 integrity) ≤
      confRank (calculateConfidence b4 integrity) := by
  have hlow : calculateConfidence b2 integrity = "LOW" := by
    unfold calculateConfidence
    simp [h2]
  rw [hlow]
  have : confRank "LOW" = 0 := rfl
  rw [this]
  exact Nat.zero_le _

/-- Witness for C9: concrete 2- and 4-score bundles with score 0.5 and
reliability 0.8 throughout. -/
theorem confidence_monotone_two_to_four_witness :
    confRank (calculateConfidence
        [some { score := some 0.5, reliability := some 0.8 },
         some { score := some 0.5, reliability := some 0.8 }] true) ≤
      confRank (calculateConfidence
        [some { score := some 0.5, reliability := some 0.8 },
         some { score := some 0.5, reliability := some 0.8 },
         some { score := some 0.5, reliability := some 0.8 },
         some { score := some 0.5, reliability := some 0.8 }] true) :=
  confidence_monotone_two_to_four _ _ true rfl rfl
    (by norm_num [entryRelGe07])
    (by norm_num [entryRelGe07])
    (by norm_num [scoresVariance, scoresMean, presentScores, List.filterMap_cons, List.filterMap_nil])


lemma timeline_flags_sub (p : String → Option Int) (m : RawMetadata)
    (i : Option IntakeDeclarations) (fl : List TechnicalFlag) (f : TechnicalFlag) :
    f ∈ checkTimelineConsistency p m i fl →
      f ∈ fl ∨ f = TechnicalFlag.TIMELINE_INCONSISTENCY := by
  intro h
  simp only [checkTimelineConsistency] at h
  repeat' split at h
  all_goals
    first
      | exact Or.inl h
      | exact (mem_addFlag _ _ _).mp h

lemma format_flags_sub (m : RawMetadata) (i : Option IntakeDeclarations)
    (fl : List TechnicalFlag) (f : TechnicalFlag) :
    f ∈ checkFormatConsistency m i fl →
      f ∈ fl ∨ f = TechnicalFlag.FORMAT_VERSION_MISMATCH := by
  intro h
  simp only [checkFormatConsistency] at h
  repeat' split at h
  all_goals
    first
      | exact Or.inl h
      | exact (mem_addFlag _ _ _).mp h

lemma software_flags_sub (m : RawMetadata) (i : Option IntakeDeclarations)
    (fl fl2 : List TechnicalFlag)
    (hok : checkSoftwareSignaturesE m i fl = Except.ok fl2) (f : TechnicalFlag)
    (hf : f ∈ fl2) :
    f ∈ fl ∨ f = TechnicalFlag.UNDECLARED_SOFTWARE ∨
      f = TechnicalFlag.SOFTWARE_SIGNATURE_UNKNOWN := by
  simp only [checkSoftwareSignaturesE] at hok
  by_cases hd : (detectedSoftwareFields m).length = 0
  · rw [if_pos hd] at hok
    cases hok
    exact Or.inl hf
  · rw [if_neg hd] at hok
    cases hc : collectDeclaredToolsE i with
    | error u => simp only [hc] at hok; exact Except.noConfusion hok
    | ok ds =>
      simp only [hc] at hok
      by_cases hl : ds.length > 0
      · rw [if_pos hl] at hok
        cases hok
        rcases (mem_undeclared_foldl ds (detectedSoftwareFields m) fl f).mp hf with h1 | ⟨h2, _⟩
        · exact Or.inl h1
        · exact Or.inr (Or.inl h2)
      · rw [if_neg hl] at hok
        cases hok
        rcases (mem_addFlag fl f TechnicalFlag.SOFTWARE_SIGNATURE_UNKNOWN).mp hf with h1 | h2
        · exact Or.inl h1
        · exact Or.inr (Or.inr h2)

/-- C10: no execution of analyzeMetadata ever emits EXPORT_CHAIN_BREAK:
the flag exists in the TECHNICAL_FLAGS enumeration but no code path adds
it, for every file reference, download outcome, sniffed type, extracted
record, date oracle and declaration. -/
theorem export_chain_break_never_emitted (env : AnalyzeEnv)
    (intake : Option IntakeDeclarations) :
    (analyzeMetadataFlags env intake).contains TechnicalFlag.EXPORT_CHAIN_BREAK = false := by
  have key : TechnicalFlag.EXPORT_CHAIN_BREAK ∉ analyzeMetadataFlags env intake := by
    intro hmem
    simp only [analyzeMetadataFlags] at hmem
    repeat' split at hmem
    all_goals
      first
        | (simp [addFlag] at hmem
           done)
        | (rcases (mem_addFlag _ _ _).mp hmem with h1 | h2
           · first
               | simp at h1
               | (rcases timeline_flags_sub _ _ _ _ _ h1 with k1 | k2
                  · simp at k1
                  · exact TechnicalFlag.noConfusion k2)
           · exact TechnicalFlag.noConfusion h2)
        | (rename_i heq
           rcases format_flags_sub _ _ _ _ hmem with h1 | h2
           · rcases software_flags_sub _ _ _ _ heq _ h1 with g1 | g2 | g3
             · rcases timeline_flags_sub _ _ _ _ _ g1 with k1 | k2
               · simp at k1
               · exact TechnicalFlag.noConfusion k2
             · exact TechnicalFlag.noConfusion g2
             · exact TechnicalFlag.noConfusion g3
           · exact TechnicalFlag.noConfusion h2)
  simpa using key


/-- Well-formedness of the intake declaration for the engine: every
list-typed field is absent or a genuine array. -/
def wfIntake : Option IntakeDeclarations → Bool
  | none => true
  | some i =>
      (match i.genesis_declaration with
       | some g => g.ai_tools_declared.wellTyped
       | none => true) &&
      (match i.process_declaration with
       | some p => p.software_used.wellTyped && p.evidence_promised.wellTyped
       | none => true)

def wfTech : Option TechnicalEvidence → Bool
  | none => true
  | some t => t.metadata_flags.wellTyped &&
      (match t.extracted_metadata with
       | some m => m.software.wellTyped
       | none => true)

def wfEvidence : Option EvidenceList → Bool
  | none => true
  | some e => e.files.wellTyped

def isOkB {α : Type} : Except Unit α → Bool
  | Except.ok _ => true
  | Except.error _ => false

lemma wellTyped_orEmpty {α : Type} (f : JField α) (h : f.wellTyped = true) :
    ∃ xs, jfOrEmpty f = JField.list xs := by
  cases f with
  | absent => exact ⟨[], rfl⟩
  | list xs => exact ⟨xs, rfl⟩
  | str s => simp [JField.wellTyped] at h
  | num q => simp [JField.wellTyped] at h

lemma aiToolsField_wf (intake : Option IntakeDeclarations)
    (h : wfIntake intake = true) : (aiToolsField intake).wellTyped = true := by
  cases intake with
  | none => rfl
  | some i =>
    simp only [wfIntake, Bool.and_eq_true] at h
    cases hg : i.genesis_declaration with
    | none => simp [aiToolsField, hg, JField.wellTyped]
    | some g => rw [hg] at h; simpa [aiToolsField, hg] using h.1

lemma softwareUsedField_wf (intake : Option IntakeDeclarations)
    (h : wfIntake intake = true) : (softwareUsedField intake).wellTyped = true := by
  cases intake with
  | none => rfl
  | some i =>
    simp only [wfIntake, Bool.and_eq_true] at h
    cases hp : i.process_declaration with
    | none => simp [softwareUsedField, hp, JField.wellTyped]
    | some p =>
      rw [hp] at h
      simp only [Bool.and_eq_true] at h
      simpa [softwareUsedField, hp] using h.2.1

lemma evidencePromisedField_wf (intake : Option IntakeDeclarations)
    (h : wfIntake intake = true) : (evidencePromisedField intake).wellTyped = true := by
  cases intake with
  | none => rfl
  | some i =>
    simp only [wfIntake, Bool.and_eq_true] at h
    cases hp : i.process_declaration with
    | none => simp [evidencePromisedField, hp, JField.wellTyped]
    | some p =>
      rw [hp] at h
      simp only [Bool.and_eq_true] at h
      simpa [evidencePromisedField, hp] using h.2.2

lemma metadataFlagsField_wf (tech : Option TechnicalEvidence)
    (h : wfTech tech = true) : (metadataFlagsField tech).wellTyped = true := by
  cases tech with
  | none => rfl
  | some t =>
    simp only [wfTech, Bool.and_eq_true] at h
    simpa [metadataFlagsField] using h.1

lemma extractedSoftwareField_wf (tech : Option TechnicalEvidence)
    (h : wfTech tech = true) : (extractedSoftwareField tech).wellTyped = true := by
  cases tech with
  | none => rfl
  | some t =>
    simp only [wfTech, Bool.and_eq_true] at h
    cases hm : t.extracted_metadata with
    | none => simp [extractedSoftwareField, hm, JField.wellTyped]
    | some m => rw [hm] at h; simpa [extractedSoftwareField, hm] using h.2

lemma evidenceFilesField_wf (ev : Option EvidenceList)
    (h : wfEvidence ev = true) : (evidenceFilesField ev).wellTyped = true := by
  cases ev with
  | none => rfl
  | some e => simpa [evidenceFilesField, wfEvidence] using h

lemma toolsFromAiDeclared_ok (f : JField ToolEntry) (h : f.wellTyped = true) :
    ∃ ts, toolsFromAiDeclared f = Except.ok ts := by
  cases f with
  | absent => exact ⟨[], rfl⟩
  | list xs => exact ⟨_, rfl⟩
  | str s => simp [JField.wellTyped] at h
  | num q => simp [JField.wellTyped] at h

lemma toolsFromSoftwareUsed_ok (f : JField String) (h : f.wellTyped = true) :
    ∃ ts, toolsFromSoftwareUsed f = Except.ok ts := by
  cases f with
  | absent => exact ⟨[], rfl⟩
  | list xs => exact ⟨xs, rfl⟩
  | str s => simp [JField.wellTyped] at h
  | num q => simp [JField.wellTyped] at h

lemma collectDeclaredToolsE_ok (intake : Option IntakeDeclarations)
    (h : wfIntake intake = true) :
    ∃ ds, collectDeclaredToolsE intake = Except.ok ds := by
  obtain ⟨t1, h1⟩ := toolsFromAiDeclared_ok _ (aiToolsField_wf intake h)
  obtain ⟨t2, h2⟩ := toolsFromSoftwareUsed_ok _ (softwareUsedField_wf intake h)
  exact ⟨t1 ++ t2, by simp [collectDeclaredToolsE, h1, h2]⟩

lemma evaluateToolingDimensionE_ok (e : Expectations) (tech : Option TechnicalEvidence)
    (intake : Option IntakeDeclarations)
    (hI : wfIntake intake = true) (hT : wfTech tech = true) :
    isOkB (evaluateToolingDimensionE e tech intake) = true := by
  obtain ⟨ds, hds⟩ := collectDeclaredToolsE_ok intake hI
  obtain ⟨xs, hxs⟩ := wellTyped_orEmpty _ (metadataFlagsField_wf tech hT)
  obtain ⟨ys, hys⟩ := wellTyped_orEmpty _ (extractedSoftwareField_wf tech hT)
  simp only [evaluateToolingDimensionE, hds, hxs, hys, jfIncludesStr, countUndeclared]
  repeat' split
  all_goals first | rfl | simp_all

lemma evaluateEvidenceDimensionE_ok (e : Expectations) (ev : Option EvidenceList)
    (intake : Option IntakeDeclarations)
    (hI : wfIntake intake = true) (hE : wfEvidence ev = true) :
    isOkB (evaluateEvidenceDimensionE e ev intake) = true := by
  obtain ⟨ps, hps⟩ := wellTyped_orEmpty _ (evidencePromisedField_wf intake hI)
  obtain ⟨fs, hfs⟩ := wellTyped_orEmpty _ (evidenceFilesField_wf ev hE)
  cases ps with
  | nil => simp [evaluateEvidenceDimensionE, hps, isOkB]
  | cons p rest =>
    simp only [evaluateEvidenceDimensionE, hps, hfs]
    repeat' split
    all_goals first | rfl | simp_all

/-- C6 counterexample: a truthy non-array value in
genesis_declaration.ai_tools_declared makes evaluateConsistency throw a
TypeError (`forEach` is called on it), instead of returning a verdict. -/
theorem evaluateConsistency_throws_on_malformed_tools :
    evaluateConsistencyE "case-1"
      (some { genesis_declaration :=
                some { declared_git_level := none
                     , ai_tools_declared := JField.str "oops" }
            , process_declaration := none
            , artist_declaration := none
            , declared_human_control := none })
      none none = Except.error () := rfl

/-- C6 (amended): evaluateConsistency returns a verdict without raising
for every combination of declaration, metadata flags, technical
evidence and evidence list whose list-typed fields are either absent or
genuine lists (absent sub-objects never raise); the CONTROL dimension
falls back to CONSISTENT when high-control evidence is not expected,
and the EVIDENCE_COMPLETENESS dimension to CONSISTENT when no evidence
was promised.  A truthy non-list value in a list-typed field, however,
raises a TypeError. -/
theorem evaluateConsistency_no_throw_on_wellformed
    (case_id : String) (intake : Option IntakeDeclarations)
    (tech : Option TechnicalEvidence) (ev : Option EvidenceList)
    (hI : wfIntake intake = true) (hT : wfTech tech = true)
    (hE : wfEvidence ev = true) :
    isOkB (evaluateConsistencyE case_id intake tech ev) = true ∧
    (∀ e : Expectations, e.expects_high_control_evidence = false →
      evaluateControlDimension e ev tech intake = Verdict.CONSISTENT) ∧
    (evidencePromisedField intake = JField.absent →
      ∀ e : Expectations, evaluateEvidenceDimensionE e ev intake
        = Except.ok Verdict.CONSISTENT) := by
  refine ⟨?_, ?_, ?_⟩
  · have ht := evaluateToolingDimensionE_ok
      (normalizeDeclarations (declaredGitLevel intake) (declaredHumanControl intake)
        (declaredNoAiInFinal intake)) tech intake hI hT
    have he := evaluateEvidenceDimensionE_ok
      (normalizeDeclarations (declaredGitLevel intake) (declaredHumanControl intake)
        (declaredNoAiInFinal intake)) ev intake hI hE
    cases hto : evaluateToolingDimensionE
        (normalizeDeclarations (declaredGitLevel intake) (declaredHumanControl intake)
          (declaredNoAiInFinal intake)) tech intake with
    | error u => rw [hto] at ht; exact Bool.noConfusion ht
    | ok vt =>
      cases hev : evaluateEvidenceDimensionE
          (normalizeDeclarations (declaredGitLevel intake) (declaredHumanControl intake)
            (declaredNoAiInFinal intake)) ev intake with
      | error u => rw [hev] at he; exact Bool.noConfusion he
      | ok ve => simp [evaluateConsistencyE, hto, hev, isOkB]
  · intro e hfalse
    simp [evaluateControlDimension, hfalse]
  · intro habs e
    simp [evaluateEvidenceDimensionE, habs, jfOrEmpty]

/-- Witness for the amended C6: empty, well-formed inputs. -/
theorem evaluateConsistency_no_throw_on_wellformed_witness :
    isOkB (evaluateConsistencyE "c" none none none) = true :=
  (evaluateConsistency_no_throw_on_wellformed "c" none none none rfl rfl rfl).1


end Aura
